import Mathlib

/-!
Verification development for the Folk CRM MCP server (`mcp_folk`).

The Python sources `api_client.py`, `api_models.py` and `server.py` are
shallowly embedded below.  Pure request/response shaping code becomes Lean
functions; each agent-facing tool is modelled as a function from its caller
arguments (plus the upstream responses it would consume) to the pair of
(HTTP requests it issues, outcome it returns), so that "fails before any
network call" is the statement that the request list is empty.
-/

/-! ## Minimal JSON values (dict/list/str payloads built by the client) -/

/-- A JSON-like value, sufficient for the request bodies the client builds:
strings, arrays of values, and objects (insertion-ordered key/value lists,
mirroring Python dicts). -/
inductive JVal where
  | str (s : String)
  | arr (xs : List JVal)
  | obj (fields : List (String × JVal))

/-- Association-list lookup on an object body (the decoding direction of the
round-trip claims): first binding of the key wins, like Python dict access. -/
def alookup : List (String × JVal) → String → Option JVal
  | [], _ => none
  | (k, v) :: rest, key => if k == key then some v else alookup rest key

/-! ## Python string truthiness -/

/-- Python truthiness of an `Optional[str]`: `None` and `""` are falsy. -/
def strTruthy : Option String → Bool
  | none => false
  | some s => s != ""

/-- Python truthiness of an `Optional[list]`: `None` and `[]` are falsy. -/
def listTruthy {α : Type} : Option (List α) → Bool
  | some (_ :: _) => true
  | _ => false

/-- Python truthiness of an `Optional[dict]`: `None` and an empty dict are falsy. -/
def objTruthy : Option (List (String × JVal)) → Bool
  | some (_ :: _) => true
  | _ => false

/-- Python `" ".join(parts)`. -/
def joinSpace : List String → String
  | [] => ""
  | [s] => s
  | s :: rest => s ++ " " ++ joinSpace rest

/-! ## Aware datetimes and UTC conversion (`create_reminder`, api_client.py 503-514)

`datetime.fromisoformat(trigger_time.replace("Z", "+00:00"))` produces an
offset-aware datetime; we embed its result directly as a record of calendar
components plus the parsed UTC offset in minutes (a `Z` suffix is offset 0,
exactly what the `replace` call arranges).  `astimezone(UTC)` re-expresses
the same instant at offset 0; we implement it through the standard
proleptic-Gregorian day-numbering (days-from-civil / civil-from-days). -/

structure AwareDateTime where
  year : Int
  month : Int
  day : Int
  hour : Int
  minute : Int
  second : Int
  offsetMinutes : Int

/-- Component ranges of a Python `datetime` (year 1-9999 etc.); every value
`fromisoformat` can return satisfies this, and `astimezone` raises
`OverflowError` rather than producing a year outside 1-9999. -/
def isValidDT (dt : AwareDateTime) : Bool :=
  1 ≤ dt.year && dt.year ≤ 9999 && 1 ≤ dt.month && dt.month ≤ 12 &&
  1 ≤ dt.day && dt.day ≤ 31 && 0 ≤ dt.hour && dt.hour ≤ 23 &&
  0 ≤ dt.minute && dt.minute ≤ 59 && 0 ≤ dt.second && dt.second ≤ 59

/-- Day number of a proleptic-Gregorian calendar date (days since 1970-01-01). -/
def daysFromCivil (y m d : Int) : Int :=
  let y1 : Int := if m ≤ 2 then y - 1 else y
  let era : Int := Int.fdiv y1 400
  let yoe : Int := y1 - era * 400
  let doy : Int := Int.fdiv (153 * (m + (if 2 < m then -3 else 9)) + 2) 5 + d - 1
  let doe : Int := yoe * 365 + Int.fdiv yoe 4 - Int.fdiv yoe 100 + doy
  era * 146097 + doe - 719468

/-- Calendar date of a day number (inverse of `daysFromCivil`). -/
def civilFromDays (z0 : Int) : Int × Int × Int :=
  let z : Int := z0 + 719468
  let era : Int := Int.fdiv z 146097
  let doe : Int := z - era * 146097
  let yoe : Int :=
    Int.fdiv (doe - Int.fdiv doe 1460 + Int.fdiv doe 36524 - Int.fdiv doe 146096) 365
  let y : Int := yoe + era * 400
  let doy : Int := doe - (365 * yoe + Int.fdiv yoe 4 - Int.fdiv yoe 100)
  let mp : Int := Int.fdiv (5 * doy + 2) 153
  let d : Int := doy - Int.fdiv (153 * mp + 2) 5 + 1
  let m : Int := mp + (if mp < 10 then 3 else -9)
  (if m ≤ 2 then y + 1 else y, m, d)

/-- `dt.astimezone(UTC)`: the same instant re-expressed at offset 0. -/
def toUTC (dt : AwareDateTime) : AwareDateTime :=
  let total : Int :=
    daysFromCivil dt.year dt.month dt.day * 86400 +
      dt.hour * 3600 + dt.minute * 60 + dt.second - dt.offsetMinutes * 60
  let days : Int := Int.fdiv total 86400
  let rem : Int := Int.emod total 86400
  let c := civilFromDays days
  { year := c.1, month := c.2.1, day := c.2.2,
    hour := Int.fdiv rem 3600, minute := Int.emod (Int.fdiv rem 60) 60,
    second := Int.emod rem 60, offsetMinutes := 0 }

/-- Decimal digit characters, as printed by `strftime`. -/
def digitChar : Nat → Char
  | 0 => '0' | 1 => '1' | 2 => '2' | 3 => '3' | 4 => '4'
  | 5 => '5' | 6 => '6' | 7 => '7' | 8 => '8' | _ => '9'

/-- Two-digit zero-padded field (`%m`, `%d`, `%H`, `%M`, `%S`): agrees with
`strftime` for every value a `datetime` component can take (0-99). -/
def pad2 (n : Nat) : List Char :=
  [digitChar (n / 10 % 10), digitChar (n % 10)]

/-- Four-digit zero-padded field (`%Y`): agrees with `strftime`'s documented
zero-padded year for every representable `datetime` year (1-9999). -/
def pad4 (n : Nat) : List Char :=
  [digitChar (n / 1000 % 10), digitChar (n / 100 % 10),
   digitChar (n / 10 % 10), digitChar (n % 10)]

/-- `dt_utc.strftime("%Y%m%dT%H%M%S")` (api_client.py line 512). -/
def fmtCompact (dt : AwareDateTime) : List Char :=
  pad4 dt.year.toNat ++ pad2 dt.month.toNat ++ pad2 dt.day.toNat ++
    'T' :: (pad2 dt.hour.toNat ++ pad2 dt.minute.toNat ++ pad2 dt.second.toNat)

/-- The characters of the literal `DTSTART;TZID=UTC:`. -/
def dtstartPrefixChars : List Char := "DTSTART;TZID=UTC:".data

/-- The characters of the literal `RRULE:FREQ=DAILY;COUNT=1`. -/
def rruleTailChars : List Char := "RRULE:FREQ=DAILY;COUNT=1".data

/-- The first line of the recurrence rule built for `dt`:
`DTSTART;TZID=UTC:` followed by the UTC-converted compact timestamp. -/
def dtstartLineChars (dt : AwareDateTime) : List Char :=
  dtstartPrefixChars ++ fmtCompact (toUTC dt)

/-- `f"DTSTART;TZID=UTC:{dtstart}\nRRULE:FREQ=DAILY;COUNT=1"` built by
`create_reminder` (api_client.py line 514) for a parsed trigger time. -/
def buildRecurrenceRule (dt : AwareDateTime) : String :=
  String.mk (dtstartLineChars dt ++ '\n' :: rruleTailChars)

/-- Split a character sequence at every occurrence of `sep`
(the line structure of the recurrence-rule string). -/
def splitOnChar (sep : Char) : List Char → List (List Char)
  | [] => [[]]
  | c :: cs =>
    if c = sep then [] :: splitOnChar sep cs
    else
      match splitOnChar sep cs with
      | [] => [[c]]
      | l :: ls => (c :: l) :: ls

/-- Consume exactly `n` decimal digits, returning the remaining characters. -/
def digitRun : Nat → List Char → Option (List Char)
  | 0, cs => some cs
  | _ + 1, [] => none
  | n + 1, c :: cs => if c.isDigit then digitRun n cs else none

/-- Drop `pat` from the front of `cs` if it is literally there. -/
def dropLit : List Char → List Char → Option (List Char)
  | [], cs => some cs
  | _ :: _, [] => none
  | p :: ps, c :: cs => if p == c then dropLit ps cs else none

/-- The spec's line-1 shape `^DTSTART;TZID=UTC:\d{8}T\d{6}$` as a checker
(a match also shows the datetime portion carries no trailing `Z`). -/
def dtstartShape (cs : List Char) : Bool :=
  match dropLit dtstartPrefixChars cs with
  | none => false
  | some rest =>
    match digitRun 8 rest with
    | some ('T' :: rest2) =>
      match digitRun 6 rest2 with
      | some [] => true
      | _ => false
    | _ => false

/-! ### Helper lemmas for the recurrence-rule shape -/

theorem digitChar_isDigit (n : Nat) : (digitChar n).isDigit = true := by
  unfold digitChar
  split <;> decide

theorem digitChar_ne_newline (n : Nat) : digitChar n ≠ '\n' := by
  unfold digitChar
  split <;> decide

theorem fmtCompact_all (dt : AwareDateTime) :
    (fmtCompact dt).all (fun c => c.isDigit || (c == 'T')) = true := by
  simp [fmtCompact, pad4, pad2, digitChar_isDigit]

theorem fmtCompact_no_newline (dt : AwareDateTime) :
    ∀ c ∈ fmtCompact dt, c ≠ '\n' := by
  intro c hc h
  have h2 := List.all_eq_true.mp (fmtCompact_all dt) c hc
  subst h
  exact absurd h2 (by decide)

theorem dtstartLine_no_newline (dt : AwareDateTime) :
    ∀ c ∈ dtstartLineChars dt, c ≠ '\n' := by
  intro c hc
  rcases List.mem_append.mp hc with h | h
  · revert h
    have hp : ∀ c ∈ dtstartPrefixChars, c ≠ '\n' := by decide
    exact hp c
  · exact fmtCompact_no_newline (toUTC dt) c h

theorem splitOnChar_no_sep {sep : Char} {l : List Char}
    (h : ∀ c ∈ l, c ≠ sep) : splitOnChar sep l = [l] := by
  induction l with
  | nil => rfl
  | cons c cs ih =>
    have hc : c ≠ sep := h c (by simp)
    have hrest : splitOnChar sep cs = [cs] := ih fun x hx => h x (by simp [hx])
    simp [splitOnChar, hc, hrest]

theorem splitOnChar_append_sep {sep : Char} {l1 l2 : List Char}
    (h1 : ∀ c ∈ l1, c ≠ sep) (h2 : ∀ c ∈ l2, c ≠ sep) :
    splitOnChar sep (l1 ++ sep :: l2) = [l1, l2] := by
  induction l1 with
  | nil => simp [splitOnChar, splitOnChar_no_sep h2]
  | cons c cs ih =>
    have hc : c ≠ sep := h1 c (by simp)
    have hrest := ih fun x hx => h1 x (by simp [hx])
    simp [splitOnChar, hc, hrest]

theorem dropLit_self (p rest : List Char) : dropLit p (p ++ rest) = some rest := by
  induction p with
  | nil => rfl
  | cons c cs ih => simp [dropLit, ih]

theorem dtstartShape_fmt (u : AwareDateTime) :
    dtstartShape (dtstartPrefixChars ++ fmtCompact u) = true := by
  simp [dtstartShape, dropLit_self, fmtCompact, pad4, pad2, digitRun, digitChar_isDigit]

/-! ## Folk-ID validation (`_validate_folk_id`, server.py 97-107)

The pattern is `^[a-z]{2,4}_[0-9a-f]{8}-[0-9a-f]{4}-[0-9a-f]{4}-[0-9a-f]{4}-[0-9a-f]{12}$`
checked with `re.match`.  In Python, `$` matches at the end of the string or
just before a single newline at the end of the string, so `re.match` accepts
both an exact grammar match and a grammar match followed by one trailing
newline; `folkIdMatches` reproduces exactly that. -/

/-- Lower-case ASCII letter, the class `[a-z]`. -/
def isLowerAZ (c : Char) : Bool := 'a' ≤ c && c ≤ 'z'

/-- Lower-case hex digit, the class `[0-9a-f]`. -/
def isLowerHex (c : Char) : Bool := ('0' ≤ c && c ≤ '9') || ('a' ≤ c && c ≤ 'f')

/-- Consume exactly `n` characters of class `[0-9a-f]`. -/
def hexRun : Nat → List Char → Option (List Char)
  | 0, cs => some cs
  | _ + 1, [] => none
  | n + 1, c :: cs => if isLowerHex c then hexRun n cs else none

/-- Consume one literal character. -/
def oneChar (ch : Char) : List Char → Option (List Char)
  | [] => none
  | c :: cs => if c == ch then some cs else none

/-- The UUID-v4 shape `[0-9a-f]{8}-[0-9a-f]{4}-[0-9a-f]{4}-[0-9a-f]{4}-[0-9a-f]{12}`,
anchored at the end of input. -/
def uuidShape (cs : List Char) : Bool :=
  match hexRun 8 cs >>= oneChar '-' >>= hexRun 4 >>= oneChar '-' >>=
      hexRun 4 >>= oneChar '-' >>= hexRun 4 >>= oneChar '-' >>= hexRun 12 with
  | some [] => true
  | _ => false

/-- A complete match of the id grammar: 2-4 lower-case letters, `_`, UUID shape.
The letter run is maximal (letters cannot be `_`), so `{2,4}` plus the
following `_` is equivalent to this direct check. -/
def idCoreMatch (cs : List Char) : Bool :=
  let letters := cs.takeWhile isLowerAZ
  let rest := cs.drop letters.length
  2 ≤ letters.length && letters.length ≤ 4 &&
    match rest with
    | '_' :: uuid => uuidShape uuid
    | _ => false

/-- The id grammar exactly as the spec states it: the whole string is
`prefix_uuid`, nothing more (a plain fully-anchored regex language). -/
def specIdGrammar (s : String) : Bool := idCoreMatch s.data

/-- What `_FOLK_ID_RE.match(value)` actually accepts (server.py 27-29, 102):
an exact grammar match, or a grammar match followed by exactly one trailing
newline, because Python's `$` also matches before a final newline. -/
def folkIdMatches (s : String) : Bool :=
  idCoreMatch s.data ||
    (match s.data.getLast? with
     | some '\n' => idCoreMatch s.data.dropLast
     | _ => false)

/-- The `ValueError` message raised by `_validate_folk_id` (server.py 103-107). -/
def invalidIdMsg (entity value : String) : String :=
  "Invalid " ++ entity ++ " ID \x27" ++ value ++
    "\x27. Folk IDs are prefix + UUID v4 format (e.g., \x27per_xxxxxxxx-xxxx-xxxx-xxxx-xxxxxxxxxxxx\x27). " ++
    "Call find_person or find_company first to get the correct ID from the search results."

/-- C1: for every parsed timestamp carrying an explicit UTC offset or `Z`
suffix (an offset-aware datetime, with the `astimezone(UTC)` result in the
representable range), the recurrence-rule string built by `create_reminder`
with no caller recurrence splits on newlines into exactly two lines; line 1
is the literal `DTSTART;TZID=UTC:` followed by the UTC-converted timestamp
formatted `YYYYMMDDTHHMMSS`, matching `^DTSTART;TZID=UTC:\d{8}T\d{6}$` (hence
no trailing `Z`); line 2 is the literal `RRULE:FREQ=DAILY;COUNT=1`. -/
theorem c1_recurrence_rule_shape (dt : AwareDateTime)
    (h1 : isValidDT dt = true) (h2 : isValidDT (toUTC dt) = true) :
    splitOnChar '\n' (buildRecurrenceRule dt).data =
      [dtstartPrefixChars ++ fmtCompact (toUTC dt), rruleTailChars]
    ∧ dtstartShape (dtstartPrefixChars ++ fmtCompact (toUTC dt)) = true := by
  constructor
  · show splitOnChar '\n' (dtstartLineChars dt ++ '\n' :: rruleTailChars) = _
    exact splitOnChar_append_sep (dtstartLine_no_newline dt) (by decide)
  · exact dtstartShape_fmt (toUTC dt)

/-- The spec's example input `2026-01-15T17:00:00+08:00` as a parsed
offset-aware datetime (offset +08:00 is 480 minutes). -/
def exampleDT : AwareDateTime :=
  { year := 2026, month := 1, day := 15, hour := 17, minute := 0, second := 0,
    offsetMinutes := 480 }

/-- Witness for C1 at the spec's example `2026-01-15T17:00:00+08:00`: the
built rule is exactly the two lines `DTSTART;TZID=UTC:20260115T090000` and
`RRULE:FREQ=DAILY;COUNT=1`. -/
theorem c1_witness :
    splitOnChar '\n' (buildRecurrenceRule exampleDT).data =
      ["DTSTART;TZID=UTC:20260115T090000".data, "RRULE:FREQ=DAILY;COUNT=1".data]
    ∧ dtstartShape "DTSTART;TZID=UTC:20260115T090000".data = true := by
  have h := c1_recurrence_rule_shape exampleDT (by decide) (by decide)
  exact ⟨h.1, h.2⟩

/-! ## Entity snapshots (api_models.py)

Fields not consulted by any verified tool are omitted; optional upstream
fields are `Option`s, list fields default to `[]` (pydantic
`default_factory=list`), and the group-scoped custom-field map is an
insertion-ordered association list, outer key = group id. -/

structure Person where
  id : String
  first_name : Option String := none
  last_name : Option String := none
  full_name : Option String := none
  description : Option String := none
  job_title : Option String := none
  created_at : Option String := none
  emails : List String := []
  phones : List String := []
  urls : List String := []
  custom_field_values : List (String × List (String × JVal)) := []

structure Company where
  id : String
  name : Option String := none
  description : Option String := none
  industry : Option String := none
  created_at : Option String := none
  emails : List String := []
  phones : List String := []
  urls : List String := []
  custom_field_values : List (String × List (String × JVal)) := []

structure FolkGroup where
  id : String
  name : String
  deriving DecidableEq

structure UserT where
  id : String
  full_name : String
  email : String

structure Note where
  id : String
  content : String
  created_at : Option String := none

/-- Lookup in a group-scoped custom-field map, with a default for a missing
group (Python `person.custom_field_values.get(group_id, {})`). -/
def cfvLookup (m : List (String × List (String × JVal))) (gid : String) :
    List (String × JVal) :=
  match m with
  | [] => []
  | (k, v) :: rest => if k == gid then v else cfvLookup rest gid

/-! ## Filter encoding (`list_people`/`list_companies`/`list_deals`,
api_client.py 184-191)

A filter value is either a literal or a one-level mapping of operator to
value; the encoder flattens to bracket-notation query keys. The value and
operator types are passed through unchanged (no validation). -/

/-- A caller-supplied filter value: a literal, or `operator: value` pairs. -/
inductive FilterVal (α : Type) where
  | lit (v : α)
  | ops (m : List (String × α))
  deriving DecidableEq

/-- The bracket-notation filter serialization loop of `list_people`
(api_client.py 185-191, with identical copies in `list_companies` and
`list_deals`). -/
def encodeFilters {α : Type} (filters : List (String × FilterVal α)) :
    List (String × α) :=
  filters.flatMap fun kv =>
    match kv.2 with
    | .lit v => [("filter[" ++ kv.1 ++ "]", v)]
    | .ops m => m.map fun ov => ("filter[" ++ kv.1 ++ "][" ++ ov.1 ++ "]", ov.2)

/-! ## Request bodies built by the client (api_client.py) -/

/-- One conditional body entry under Python truthiness:
`if arg: body[key] = arg` for a string argument. -/
def strEntry (key : String) (o : Option String) : List (String × JVal) :=
  match o with
  | some s => if s == "" then [] else [(key, .str s)]
  | none => []

/-- One conditional body entry under Python truthiness for a list argument. -/
def listEntry (key : String) (o : Option (List String)) : List (String × JVal) :=
  match o with
  | some (x :: xs) => [(key, .arr ((x :: xs).map .str))]
  | _ => []

/-- One conditional body entry under Python truthiness for a dict argument. -/
def objEntry (key : String) (o : Option (List (String × JVal))) :
    List (String × JVal) :=
  match o with
  | some (f :: fs) => [(key, .obj (f :: fs))]
  | _ => []

/-- One conditional body entry under `is not None` for a string argument
(the update-call convention). -/
def strEntryN (key : String) (o : Option String) : List (String × JVal) :=
  match o with
  | some s => [(key, .str s)]
  | none => []

/-- One conditional body entry under `is not None` for a list argument. -/
def listEntryN (key : String) (o : Option (List String)) : List (String × JVal) :=
  match o with
  | some l => [(key, .arr (l.map .str))]
  | none => []

/-- One conditional body entry under `is not None` for a dict argument. -/
def objEntryN (key : String) (o : Option (List (String × JVal))) :
    List (String × JVal) :=
  match o with
  | some m => [(key, .obj m)]
  | none => []

/-- `FolkClient.create_person` body assembly (api_client.py 203-239): each
argument is added under its camelCase key only when truthy (so `None`, `""`,
`[]` and `{}` all produce no key), in source order. -/
def create_person_body (first_name last_name : Option String)
    (emails phones : Option (List String)) (job_title description : Option String)
    (group_ids company_ids : Option (List String))
    (custom_fields : Option (List (String × JVal))) : List (String × JVal) :=
  strEntry "firstName" first_name ++
    (strEntry "lastName" last_name ++
    (listEntry "emails" emails ++
    (listEntry "phones" phones ++
    (strEntry "jobTitle" job_title ++
    (strEntry "description" description ++
    (listEntry "groupIds" group_ids ++
    (listEntry "companyIds" company_ids ++
    objEntry "customFieldValues" custom_fields)))))))

/-- `FolkClient.update_person` body assembly (api_client.py 255-274):
`is not None` checks, in source order. -/
def update_person_body (first_name last_name : Option String)
    (emails phones : Option (List String)) (job_title description : Option String)
    (group_ids company_ids : Option (List String))
    (custom_fields : Option (List (String × JVal))) : List (String × JVal) :=
  strEntryN "firstName" first_name ++
    (strEntryN "lastName" last_name ++
    (listEntryN "emails" emails ++
    (listEntryN "phones" phones ++
    (strEntryN "jobTitle" job_title ++
    (strEntryN "description" description ++
    (listEntryN "groupIds" group_ids ++
    (listEntryN "companyIds" company_ids ++
    objEntryN "customFieldValues" custom_fields)))))))

/-- `FolkClient.update_company` body assembly (api_client.py 366-383). -/
def update_company_body (name description industry : Option String)
    (emails phones urls group_ids : Option (List String))
    (custom_fields : Option (List (String × JVal))) : List (String × JVal) :=
  strEntryN "name" name ++
    (strEntryN "description" description ++
    (strEntryN "industry" industry ++
    (listEntryN "emails" emails ++
    (listEntryN "phones" phones ++
    (listEntryN "urls" urls ++
    (listEntryN "groupIds" group_ids ++
    objEntryN "customFieldValues" custom_fields))))))

/-! ## Transport core (`FolkClient._request`, api_client.py 87-166)

A response is a status plus an optional decoded JSON body (`none` models an
empty or non-JSON body, on which `response.json()` raises).  The method and
the presence of a JSON request body select the code path: `DELETE` with no
body uses the separate Content-Type-free session and is the only path that
special-cases `204 No Content`; every other path calls `response.json()`
first and only then inspects the status.  Error-message extraction from the
error envelope is orthogonal to the verified claims, so the typed failure
carries the status and the raw decoded body. -/

structure HttpResponse where
  status : Nat
  body : Option JVal

/-- Outcome classification of `_request`: a JSON-decode failure raised by
`response.json()`, or a `FolkAPIError` for a status of 400 and above. -/
inductive ReqError where
  | parse
  | api (status : Nat) (body : JVal)

/-- `FolkClient._request` (api_client.py 87-166): `hasJsonBody` is
`json_data is not None`. -/
def folkRequest (method : String) (hasJsonBody : Bool) (resp : HttpResponse) :
    Except ReqError JVal :=
  if method == "DELETE" && !hasJsonBody then
    if resp.status == 204 then .ok (.obj [])
    else
      match resp.body with
      | none => .error .parse
      | some r => if 400 ≤ resp.status then .error (.api resp.status r) else .ok r
  else
    match resp.body with
    | none => .error .parse
    | some r => if 400 ≤ resp.status then .error (.api resp.status r) else .ok r

/-! ## Upstream calls issued by the tools -/

/-- The reminder-creation body (api_client.py 516-529): `assignedUsers`, when
present, is the list of user-id reference objects in order. -/
structure ReminderBody where
  entityId : String
  name : String
  recurrenceRule : String
  visibility : String
  assignedUsers : Option (List String)

/-- One outbound HTTP call, tagged with the parameters relevant to the
verified claims. -/
inductive FolkCall where
  | getPerson (id : String)
  | getCompany (id : String)
  | patchPerson (id : String) (body : List (String × JVal))
  | patchCompany (id : String) (body : List (String × JVal))
  | deletePersonReq (id : String)
  | deleteCompanyReq (id : String)
  | postNote (body : List (String × JVal))
  | listNotesReq (limit : Int) (entityId : Option String)
  | getCurrentUser
  | postReminder (body : ReminderBody)
  | postInteraction (body : List (String × JVal))
  | listPeopleReq (limit : Int) (filters : List (String × FilterVal JVal))
  | listCompaniesReq (limit : Int) (filters : List (String × FilterVal JVal))
  | listGroupsReq (limit : Int)

/-- Number of `GET /users/me` (current-user) calls in a trace. -/
def countCurrentUserCalls : List FolkCall → Nat
  | [] => 0
  | .getCurrentUser :: rest => 1 + countCurrentUserCalls rest
  | _ :: rest => countCurrentUserCalls rest

/-! ## `FolkClient.create_reminder` (api_client.py 486-533)

The trigger time has already been parsed (an unparsable string raises
`ValueError` inside `datetime.fromisoformat`, before any request).  The
assignee handling is Python truthiness: a non-empty explicit list is
forwarded; otherwise a public reminder first fetches the current user (one
extra upstream call, before the POST) and assigns exactly that user. -/

/-- The assignee step of `create_reminder` (api_client.py 523-529): extra
calls performed, and the `assignedUsers` value for the body. -/
def createReminderAssign (visibility : String)
    (assigned_user_ids : Option (List String)) (currentUser : UserT) :
    List FolkCall × Option (List String) :=
  match assigned_user_ids with
  | some (u :: us) => ([], some (u :: us))
  | _ =>
    if visibility == "public" then ([.getCurrentUser], some [currentUser.id])
    else ([], none)

/-- The full trace of `create_reminder`: any current-user fetch, then the
`POST /reminders` with the assembled body. -/
def create_reminder (entity_id name : String) (dt : AwareDateTime)
    (visibility : String) (assigned_user_ids : Option (List String))
    (currentUser : UserT) : List FolkCall × ReminderBody :=
  let a := createReminderAssign visibility assigned_user_ids currentUser
  let body : ReminderBody :=
    { entityId := entity_id, name := name,
      recurrenceRule := buildRecurrenceRule dt, visibility := visibility,
      assignedUsers := a.2 }
  (a.1 ++ [.postReminder body], body)

/-! ## Display-name construction (server.py)

`find_person` (196-203), `browse_people` (388-394) and
`find_people_in_group` (578-584) all inline the identical snippet: collect
the truthy name parts, join with a single space, and fall back through
Python `or` to `person.full_name` and then `"Unknown"`.  `update_person`
(845-850) inlines the same snippet but its fallback chain is
`" ".join(parts) or "Unknown"` with no `full_name` step. -/

/-- The truthy name parts `[first?, last?]` (empty strings are dropped,
exactly as `if person.first_name:` does). -/
def nameParts (p : Person) : List String :=
  (if strTruthy p.first_name then [p.first_name.getD ""] else []) ++
    (if strTruthy p.last_name then [p.last_name.getD ""] else [])

/-- Python `x or y` on strings (`None` has already been collapsed to `""`,
which `or` treats identically). -/
def pyOr (x y : String) : String := if x == "" then y else x

/-- `" ".join(parts) or person.full_name or "Unknown"`: the display name
used by `find_person`, `browse_people` and `find_people_in_group`. -/
def displayName (p : Person) : String :=
  pyOr (joinSpace (nameParts p)) (pyOr (p.full_name.getD "") "Unknown")

/-- `" ".join(parts) or "Unknown"`: the display name used by
`update_person` (server.py 850), which consults no `full_name`. -/
def updateDisplayName (p : Person) : String :=
  pyOr (joinSpace (nameParts p)) "Unknown"

/-- The name-construction rule in the spec's words (spec 4.5): the non-empty
first and last parts joined by a single space; if both parts are absent,
the upstream `fullName`; if that is also absent, the literal `Unknown`. -/
def specRuleName (p : Person) : String :=
  let parts :=
    (match p.first_name with
     | some s => if s = "" then [] else [s]
     | none => []) ++
    (match p.last_name with
     | some s => if s = "" then [] else [s]
     | none => [])
  match parts with
  | [] =>
    match p.full_name with
    | some f => if f = "" then "Unknown" else f
    | none => "Unknown"
  | _ => joinSpace parts

/-! ## Group-name resolution (server.py 537-558 and its verbatim copy
663-664 in `find_companies_in_group`) -/

/-- Whether `needle` occurs literally at the front of the second list. -/
def startsWithCh : List Char → List Char → Bool
  | [], _ => true
  | _ :: _, [] => false
  | a :: as, b :: bs => a == b && startsWithCh as bs

/-- Whether `needle` occurs contiguously anywhere in the haystack
(Python's `in` on strings; the empty needle always matches). -/
def containsSeq (needle : List Char) : List Char → Bool
  | [] => startsWithCh needle []
  | c :: rest => startsWithCh needle (c :: rest) || containsSeq needle rest

/-- Case-insensitive key of a string: Python `.lower()` (ASCII-faithful). -/
def lowerChars (s : String) : List Char := s.data.map Char.toLower

/-- Case-insensitive exact name match (server.py 540). -/
def ciEq (query : String) (g : FolkGroup) : Bool :=
  lowerChars g.name == lowerChars query

/-- Case-insensitive substring match: Python `group_name.lower() in
g.name.lower()` (server.py 547). -/
def ciSub (query : String) (g : FolkGroup) : Bool :=
  containsSeq (lowerChars query) (lowerChars g.name)

/-- Group-name resolution: first `next` over exact matches, then, only on
miss, `next` over substring matches; listing order throughout. -/
def resolveGroup (groups : List FolkGroup) (query : String) : Option FolkGroup :=
  match groups.find? (ciEq query) with
  | some g => some g
  | none => groups.find? (ciSub query)

/-! ## Agent-facing tools (server.py)

Each tool is a function from its caller arguments, plus the upstream
responses it would consume, to `(requests issued, outcome)`.  A tool whose
first statement is `_validate_folk_id` returns `([], error)` on an invalid
id: the `raise` happens before `get_client` and before any `await`ed
request, so the trace is empty. -/

/-- The `min(max(n, 1), 50)` clamp applied to `per_page` / `limit`
(server.py 381, 441, 535, 641, 1014). -/
def clampPage (n : Int) : Int := min (max n 1) 50

structure FindPersonRow where
  id : String
  name : String
  email : Option String

/-- The dict returned by `find_person`; `matchRows` is the Python key
`matches` (renamed: `matches` is reserved in Lean). -/
structure FindPersonOut where
  found : Bool
  matchRows : List FindPersonRow
  total : Nat

/-- The minimal projection `find_person` builds per person (server.py 196-214). -/
def findPersonRow (p : Person) : FindPersonRow :=
  { id := p.id, name := displayName p, email := p.emails.head? }

/-- `find_person` (server.py 169-223): one filtered people listing, then the
minimal-match projection. -/
def find_person (name : String) (people : List Person) :
    List FolkCall × FindPersonOut :=
  let rows := people.map findPersonRow
  ([.listPeopleReq 10 [("fullName", .ops [("like", .str name)])]],
   { found := decide (0 < rows.length), matchRows := rows,
     total := rows.length })

structure FindCompanyRow where
  id : String
  name : Option String
  industry : Option String

structure FindCompanyOut where
  found : Bool
  matchRows : List FindCompanyRow
  total : Nat

/-- `find_company` (server.py 226-269). -/
def find_company (name : String) (companies : List Company) :
    List FolkCall × FindCompanyOut :=
  let rows := companies.map fun c =>
    ({ id := c.id, name := c.name, industry := c.industry } : FindCompanyRow)
  ([.listCompaniesReq 10 [("name", .ops [("like", .str name)])]],
   { found := decide (0 < rows.length), matchRows := rows,
     total := rows.length })

structure PersonDetails where
  id : String
  first_name : Option String
  last_name : Option String
  full_name : Option String
  emails : List String
  phones : List String
  job_title : Option String
  description : Option String
  created_at : Option String

/-- `get_person_details` (server.py 278-311): id validation first, then one
`GET /people/:id`. -/
def get_person_details (person_id : String) (resp : Person) :
    List FolkCall × Except String PersonDetails :=
  if folkIdMatches person_id then
    ([.getPerson person_id],
     .ok { id := resp.id, first_name := resp.first_name,
           last_name := resp.last_name, full_name := resp.full_name,
           emails := resp.emails, phones := resp.phones,
           job_title := resp.job_title, description := resp.description,
           created_at := resp.created_at })
  else ([], .error (invalidIdMsg "person" person_id))

structure CompanyDetails where
  id : String
  name : Option String
  description : Option String
  industry : Option String
  emails : List String
  phones : List String
  urls : List String
  created_at : Option String

/-- `get_company_details` (server.py 314-346). -/
def get_company_details (company_id : String) (resp : Company) :
    List FolkCall × Except String CompanyDetails :=
  if folkIdMatches company_id then
    ([.getCompany company_id],
     .ok { id := resp.id, name := resp.name, description := resp.description,
           industry := resp.industry, emails := resp.emails,
           phones := resp.phones, urls := resp.urls,
           created_at := resp.created_at })
  else ([], .error (invalidIdMsg "company" company_id))

structure BrowsePersonRow where
  id : String
  name : String
  email : Option String
  company : Option String

structure BrowsePeopleOut where
  people : List BrowsePersonRow
  page : Int
  per_page : Int
  has_more : Bool

/-- The per-person projection of `browse_people` (server.py 388-403); the
`company` field is the job title, as the source comment explains. -/
def browsePersonRow (p : Person) : BrowsePersonRow :=
  { id := p.id, name := displayName p, email := p.emails.head?,
    company := p.job_title }

/-- `browse_people` (server.py 355-413): `per_page` is clamped into `[1, 50]`
(no error is raised) and the listing is fetched with the clamped limit. -/
def browse_people (page per_page : Int) (people : List Person) :
    List FolkCall × BrowsePeopleOut :=
  let pp := clampPage per_page
  let results := people.map browsePersonRow
  ([.listPeopleReq pp []],
   { people := results, page := page, per_page := pp,
     has_more := results.length == pp.toNat })

structure BrowseCompanyRow where
  id : String
  name : Option String
  industry : Option String

structure BrowseCompaniesOut where
  companies : List BrowseCompanyRow
  page : Int
  per_page : Int
  has_more : Bool

/-- `browse_companies` (server.py 416-462). -/
def browse_companies (page per_page : Int) (companies : List Company) :
    List FolkCall × BrowseCompaniesOut :=
  let pp := clampPage per_page
  let results := companies.map fun c =>
    ({ id := c.id, name := c.name, industry := c.industry } : BrowseCompanyRow)
  ([.listCompaniesReq pp []],
   { companies := results, page := page, per_page := pp,
     has_more := results.length == pp.toNat })

/-! ## Group-scoped query tools (server.py 499-706) -/

/-- The `"Group not found"` error message (server.py 555). -/
def groupNotFoundMsg (group_name : String) : String :=
  "Group \x27" ++ group_name ++ "\x27 not found"

/-- The hint accompanying a group-resolution miss (server.py 557). -/
def groupNotFoundHint : String :=
  "Check the group name or use list_groups to see all available groups"

/-- The filter mapping both group tools build (server.py 563-573): the group
membership filter, plus optional Status / custom-field filters. -/
def groupFilters (gid : String) (status custom_field custom_value : Option String) :
    List (String × FilterVal JVal) :=
  [("groups", .ops [("in", .obj [("id", .str gid)])])] ++
    (if strTruthy status then
       [("customFieldValues." ++ gid ++ ".Status",
         FilterVal.ops [("in", .str (status.getD ""))])]
     else []) ++
    (if strTruthy custom_field && strTruthy custom_value then
       [("customFieldValues." ++ gid ++ "." ++ custom_field.getD "",
         FilterVal.ops [("in", .str (custom_value.getD ""))])]
     else [])

structure GroupPersonRow where
  id : String
  name : String
  email : Option String
  job_title : Option String
  status : Option JVal
  custom_fields : List (String × JVal)

/-- The per-person projection of `find_people_in_group` (server.py 578-598). -/
def groupPersonRow (gid : String) (p : Person) : GroupPersonRow :=
  let cf := cfvLookup p.custom_field_values gid
  { id := p.id, name := displayName p, email := p.emails.head?,
    job_title := p.job_title, status := alookup cf "Status",
    custom_fields := cf }

/-- The dict returned by `find_people_in_group`: either the structured
group-not-found result (server.py 552-558) or the match listing. -/
inductive GroupPeopleOut where
  | groupMissing (found : Bool) (error : String) (availableGroups : List String)
      (hint : String)
  | results (found : Bool) (people : List GroupPersonRow) (total : Nat)
      (groupName : String)

/-- `find_people_in_group` (server.py 499-608): clamp the limit, fetch the
group listing, resolve the name (exact match then substring), and either
return the structured not-found result (with up to 10 sample names) or issue
the filtered people listing. -/
def find_people_in_group (group_name : String)
    (status custom_field custom_value : Option String) (limit : Int)
    (groups : List FolkGroup) (people : List Person) :
    List FolkCall × GroupPeopleOut :=
  let lim := clampPage limit
  match resolveGroup groups group_name with
  | none =>
    ([.listGroupsReq 100],
     .groupMissing false (groupNotFoundMsg group_name)
       ((groups.take 10).map FolkGroup.name) groupNotFoundHint)
  | some g =>
    let results := people.map (groupPersonRow g.id)
    ([.listGroupsReq 100,
      .listPeopleReq lim (groupFilters g.id status custom_field custom_value)],
     .results (decide (0 < results.length)) results results.length g.name)

structure GroupCompanyRow where
  id : String
  name : Option String
  industry : Option String
  status : Option JVal
  custom_fields : List (String × JVal)

/-- The per-company projection of `find_companies_in_group` (server.py 684-696). -/
def groupCompanyRow (gid : String) (c : Company) : GroupCompanyRow :=
  let cf := cfvLookup c.custom_field_values gid
  { id := c.id, name := c.name, industry := c.industry,
    status := alookup cf "Status", custom_fields := cf }

/-- The dict returned by `find_companies_in_group`. -/
inductive GroupCompaniesOut where
  | groupMissing (found : Bool) (error : String) (availableGroups : List String)
      (hint : String)
  | results (found : Bool) (companies : List GroupCompanyRow) (total : Nat)
      (groupName : String)

/-- `find_companies_in_group` (server.py 611-706); its resolution and
not-found code is a verbatim copy of the people variant. -/
def find_companies_in_group (group_name : String)
    (status custom_field custom_value : Option String) (limit : Int)
    (groups : List FolkGroup) (companies : List Company) :
    List FolkCall × GroupCompaniesOut :=
  let lim := clampPage limit
  match resolveGroup groups group_name with
  | none =>
    ([.listGroupsReq 100],
     .groupMissing false (groupNotFoundMsg group_name)
       ((groups.take 10).map FolkGroup.name) groupNotFoundHint)
  | some g =>
    let results := companies.map (groupCompanyRow g.id)
    ([.listGroupsReq 100,
      .listCompaniesReq lim (groupFilters g.id status custom_field custom_value)],
     .results (decide (0 < results.length)) results results.length g.name)

/-! ## Action tools with id validation (server.py 804-1099) -/

structure UpdatePersonOut where
  id : String
  name : String
  updated : Bool

/-- `update_person` (server.py 804-859): id validation first; the single-email
and single-phone arguments are wrapped into lists under Python truthiness;
the PATCH body uses the client's `is not None` convention; the response name
is rebuilt with no `full_name` fallback (server.py 845-850). -/
def update_person (person_id : String)
    (first_name last_name email phone job_title : Option String)
    (resp : Person) : List FolkCall × Except String UpdatePersonOut :=
  if folkIdMatches person_id then
    let emails : Option (List String) :=
      match email with
      | some e => if e == "" then none else some [e]
      | none => none
    let phones : Option (List String) :=
      match phone with
      | some p => if p == "" then none else some [p]
      | none => none
    ([.patchPerson person_id
        (update_person_body first_name last_name emails phones job_title
          none none none none)],
     .ok { id := resp.id, name := updateDisplayName resp, updated := true })
  else ([], .error (invalidIdMsg "person" person_id))

structure UpdateCompanyOut where
  id : String
  name : Option String
  updated : Bool

/-- `update_company` (server.py 862-903). -/
def update_company (company_id : String)
    (name industry website : Option String) (resp : Company) :
    List FolkCall × Except String UpdateCompanyOut :=
  if folkIdMatches company_id then
    let urls : Option (List String) :=
      match website with
      | some w => if w == "" then none else some [w]
      | none => none
    ([.patchCompany company_id
        (update_company_body name none industry none none urls none none)],
     .ok { id := resp.id, name := resp.name, updated := true })
  else ([], .error (invalidIdMsg "company" company_id))

structure DeleteOut where
  id : String
  deleted : Bool

/-- `delete_person` (server.py 906-929). -/
def delete_person (person_id : String) :
    List FolkCall × Except String DeleteOut :=
  if folkIdMatches person_id then
    ([.deletePersonReq person_id], .ok { id := person_id, deleted := true })
  else ([], .error (invalidIdMsg "person" person_id))

/-- `delete_company` (server.py 932-955). -/
def delete_company (company_id : String) :
    List FolkCall × Except String DeleteOut :=
  if folkIdMatches company_id then
    ([.deleteCompanyReq company_id], .ok { id := company_id, deleted := true })
  else ([], .error (invalidIdMsg "company" company_id))

structure AddNoteOut where
  id : String
  added : Bool

/-- `add_note` (server.py 964-993): id validation, then one `POST /notes`
with the entity reference, content, and public visibility. -/
def add_note (person_id content : String) (resp : Note) :
    List FolkCall × Except String AddNoteOut :=
  if folkIdMatches person_id then
    ([.postNote [("entity", .obj [("id", .str person_id)]),
                 ("content", .str content), ("visibility", .str "public")]],
     .ok { id := resp.id, added := true })
  else ([], .error (invalidIdMsg "person" person_id))

structure NoteRow where
  id : String
  content : String
  created_at : Option String

structure GetNotesOut where
  notes : List NoteRow

/-- `get_notes` (server.py 996-1030): id validation first, then the limit is
clamped into `[1, 50]` and one filtered notes listing is issued. -/
def get_notes (person_id : String) (limit : Int) (resp : List Note) :
    List FolkCall × Except String GetNotesOut :=
  if folkIdMatches person_id then
    let lim := clampPage limit
    ([.listNotesReq lim (some person_id)],
     .ok { notes := resp.map fun n =>
            ({ id := n.id, content := n.content, created_at := n.created_at }
              : NoteRow) })
  else ([], .error (invalidIdMsg "person" person_id))

structure SetReminderOut where
  id : String
  set : Bool

/-- `set_reminder` (server.py 1033-1065): id validation, then
`create_reminder` with public visibility and no explicit assignees (so the
client fetches the current user before the POST). -/
def set_reminder (person_id reminder : String) (dt : AwareDateTime)
    (currentUser : UserT) (respId : String) :
    List FolkCall × Except String SetReminderOut :=
  if folkIdMatches person_id then
    ((create_reminder person_id reminder dt "public" none currentUser).1,
     .ok { id := respId, set := true })
  else ([], .error (invalidIdMsg "person" person_id))

structure LogInteractionOut where
  id : String
  logged : Bool

/-- `log_interaction` (server.py 1068-1099). -/
def log_interaction (person_id interaction_type when : String) (respId : String) :
    List FolkCall × Except String LogInteractionOut :=
  if folkIdMatches person_id then
    ([.postInteraction [("entity", .obj [("id", .str person_id)]),
                        ("interactionType", .str interaction_type),
                        ("occurredAt", .str when)]],
     .ok { id := respId, logged := true })
  else ([], .error (invalidIdMsg "person" person_id))

/-- C2 counterexample: a valid id followed by a single trailing newline is
outside the claimed grammar `^[a-z]{2,4}_[0-9a-f]{8}-...$`, yet
`re.match` accepts it (`$` matches before a final newline), so
`get_person_details` issues its network request instead of failing. -/
theorem c2_counterexample :
    specIdGrammar "ab_00000000-0000-0000-0000-000000000000\n" = false
    ∧ folkIdMatches "ab_00000000-0000-0000-0000-000000000000\n" = true
    ∧ (get_person_details "ab_00000000-0000-0000-0000-000000000000\n"
        { id := "per_x" }).1 =
      [FolkCall.getPerson "ab_00000000-0000-0000-0000-000000000000\n"] :=
  ⟨by decide, by decide, rfl⟩

/-- C2 (amended): for every id string rejected by the code's matcher — i.e.
not a grammar match even after allowing the single trailing newline that
Python's `$` tolerates — each of the ten id-accepting tools returns the
descriptive `_validate_folk_id` error and issues zero HTTP requests. -/
theorem c2_invalid_id_no_network (idv : String)
    (h : folkIdMatches idv = false) (p : Person) (c : Company)
    (fn ln em ph jt nm ind web : Option String) (content : String)
    (lim : Int) (notes : List Note) (reminder : String) (dt : AwareDateTime)
    (cu : UserT) (rid : String) (itype whenStr iid : String) :
    (get_person_details idv p).1 = []
    ∧ (get_person_details idv p).2 = .error (invalidIdMsg "person" idv)
    ∧ (get_company_details idv c).1 = []
    ∧ (get_company_details idv c).2 = .error (invalidIdMsg "company" idv)
    ∧ (update_person idv fn ln em ph jt p).1 = []
    ∧ (update_person idv fn ln em ph jt p).2 = .error (invalidIdMsg "person" idv)
    ∧ (update_company idv nm ind web c).1 = []
    ∧ (update_company idv nm ind web c).2 = .error (invalidIdMsg "company" idv)
    ∧ (delete_person idv).1 = []
    ∧ (delete_person idv).2 = .error (invalidIdMsg "person" idv)
    ∧ (delete_company idv).1 = []
    ∧ (delete_company idv).2 = .error (invalidIdMsg "company" idv)
    ∧ (add_note idv content { id := "x", content := content }).1 = []
    ∧ (add_note idv content { id := "x", content := content }).2 =
        .error (invalidIdMsg "person" idv)
    ∧ (get_notes idv lim notes).1 = []
    ∧ (get_notes idv lim notes).2 = .error (invalidIdMsg "person" idv)
    ∧ (set_reminder idv reminder dt cu rid).1 = []
    ∧ (set_reminder idv reminder dt cu rid).2 = .error (invalidIdMsg "person" idv)
    ∧ (log_interaction idv itype whenStr iid).1 = []
    ∧ (log_interaction idv itype whenStr iid).2 = .error (invalidIdMsg "person" idv) := by
  simp [get_person_details, get_company_details, update_person, update_company,
    delete_person, delete_company, add_note, get_notes, set_reminder,
    log_interaction, h]

/-- Witness for C2 at the spec's example invalid id `John Smith`: the detail
tool fails with the descriptive error and issues no request. -/
theorem c2_witness :
    (get_person_details "John Smith" { id := "per_x" }).1 = []
    ∧ (get_person_details "John Smith" { id := "per_x" }).2 =
        .error (invalidIdMsg "person" "John Smith") := by
  have h := c2_invalid_id_no_network "John Smith" (by decide) { id := "per_x" }
    { id := "com_x" } none none none none none none none none "c" 10 [] "r"
    exampleDT { id := "usr_x", full_name := "U", email := "u@x" } "rem_x" "call"
    "2026-01-01T00:00:00Z" "int_x"
  exact ⟨h.1, h.2.1⟩

/-- C3: a public reminder with no explicit assignee list performs exactly one
`GET /users/me` before the `POST /reminders`, and the body assigns exactly
the current user; a reminder created with a non-empty explicit assignee list
performs zero current-user calls and the body assigns exactly those ids. -/
theorem c3_reminder_assignment (eid nm : String) (dt : AwareDateTime)
    (visibility : String) (cu : UserT) (u : String) (us : List String) :
    ((create_reminder eid nm dt "public" none cu).1 =
        [.getCurrentUser,
         .postReminder (create_reminder eid nm dt "public" none cu).2]
      ∧ countCurrentUserCalls (create_reminder eid nm dt "public" none cu).1 = 1
      ∧ (create_reminder eid nm dt "public" none cu).2.assignedUsers =
          some [cu.id])
    ∧ (countCurrentUserCalls
          (create_reminder eid nm dt visibility (some (u :: us)) cu).1 = 0
      ∧ (create_reminder eid nm dt visibility (some (u :: us)) cu).2.assignedUsers =
          some (u :: us)) := by
  simp [create_reminder, createReminderAssign, countCurrentUserCalls]

/-- C6: each literal filter entry encodes to `filter[field]` with its value
unchanged, and each operator entry encodes to `filter[field][operator]` with
the operator string and value passed through unchanged. -/
theorem c6_filter_encoding {α : Type} (filters : List (String × FilterVal α))
    (k : String) :
    (∀ v, (k, FilterVal.lit v) ∈ filters →
        ("filter[" ++ k ++ "]", v) ∈ encodeFilters filters)
    ∧ ∀ m op v, (k, FilterVal.ops m) ∈ filters → (op, v) ∈ m →
        ("filter[" ++ k ++ "][" ++ op ++ "]", v) ∈ encodeFilters filters := by
  constructor
  · intro v hv
    refine List.mem_flatMap.mpr ⟨(k, .lit v), hv, ?_⟩
    simp
  · intro m op v hv hov
    refine List.mem_flatMap.mpr ⟨(k, .ops m), hv, ?_⟩
    exact List.mem_map.mpr ⟨(op, v), hov, rfl⟩

/-- The spec's two filter examples as one mapping. -/
def exampleFilters : List (String × FilterVal String) :=
  [("fullName", .ops [("like", "Jones")]), ("industry", .lit "Tech")]

/-- Witness for C6 on the spec's examples: the like-filter and the literal
filter both appear under their bracket-notation keys. -/
theorem c6_witness :
    ("filter[fullName][like]", "Jones") ∈ encodeFilters exampleFilters
    ∧ ("filter[industry]", "Tech") ∈ encodeFilters exampleFilters :=
  ⟨(c6_filter_encoding exampleFilters "fullName").2 [("like", "Jones")] "like"
      "Jones" (List.Mem.head _) (List.Mem.head _),
   (c6_filter_encoding exampleFilters "industry").1 "Tech"
      (List.Mem.tail _ (List.Mem.head _))⟩

/-- C7 counterexample: a non-DELETE request whose response is `204 No
Content` with an empty body hits the general path, where `response.json()`
is called before any status check, so the result is a JSON-parse failure and
not the empty result object the claim promises for every 204. -/
theorem c7_counterexample :
    folkRequest "PATCH" true { status := 204, body := none } = .error .parse
    ∧ (folkRequest "PATCH" true { status := 204, body := none } =
        .ok (.obj []) → False) :=
  ⟨rfl, fun hcontra => Except.noConfusion hcontra⟩

/-- C7 (amended): on the DELETE-without-body path a `204` yields the empty
result object; on every path a 2xx response whose body decodes as JSON
yields that JSON (the 204-to-empty special case exists only on the
DELETE-without-body path); in particular a bodiless DELETE answered `204
No Content` succeeds with the empty object. -/
theorem c7_success_handling (method : String) (hasBody : Bool)
    (resp : HttpResponse) (j : JVal) :
    (method = "DELETE" → hasBody = false → resp.status = 204 →
        folkRequest method hasBody resp = .ok (.obj []))
    ∧ (200 ≤ resp.status → resp.status < 300 → resp.body = some j →
        (method = "DELETE" ∧ hasBody = false ∧ resp.status = 204 → False) →
        folkRequest method hasBody resp = .ok j)
    ∧ folkRequest "DELETE" false { status := 204, body := none } =
        .ok (.obj []) := by
  refine ⟨?_, ?_, rfl⟩
  · intro hm hb h204
    subst hm; subst hb
    simp [folkRequest, h204]
  · intro hlo hhi hbody hnot
    have hstat : ¬400 ≤ resp.status := by omega
    by_cases hd : (method == "DELETE" && !hasBody) = true
    · have hd2 : (method == "DELETE") = true ∧ (!hasBody) = true :=
        Bool.and_eq_true_iff.mp hd
      have hm : method = "DELETE" := eq_of_beq hd2.1
      have hb : hasBody = false := by simpa using hd2.2
      have h204 : resp.status ≠ 204 := fun h => hnot ⟨hm, hb, h⟩
      simp [folkRequest, hd, h204, hbody, hstat]
    · simp [folkRequest, hd, hbody, hstat]

/-- Witness for C7: a DELETE answered 204 yields the empty object, and a GET
answered 200 with a JSON body yields that body. -/
theorem c7_witness :
    folkRequest "DELETE" false { status := 204, body := none } = .ok (.obj [])
    ∧ folkRequest "GET" false { status := 200, body := some (.str "x") } =
        .ok (.str "x") :=
  ⟨(c7_success_handling "DELETE" false { status := 204, body := none }
      (.str "x")).1 rfl rfl rfl,
   (c7_success_handling "GET" false { status := 200, body := some (.str "x") }
      (.str "x")).2.1 (by decide) (by decide) rfl
      (fun hcontra => absurd hcontra.1 (by decide))⟩

/-- C8 counterexample: `browse_people` at `per_page = 100` (outside `[1, 50]`)
raises nothing — it issues exactly one listing request, with the limit
silently clamped to 50. -/
theorem c8_counterexample :
    ¬((100 : Int) ≤ 50)
    ∧ (browse_people 1 100 []).1 = [FolkCall.listPeopleReq 50 []]
    ∧ (browse_people 1 100 []).1.length = 1 :=
  ⟨by decide, rfl, rfl⟩

/-- C8 (amended): out-of-range pagination sizes are not rejected: every
`per_page` / `limit` is clamped into `[1, 50]` by `min(max(n, 1), 50)` and
the operation proceeds with exactly one listing request carrying the clamped
limit (for `get_notes`, after its id validation succeeds). -/
theorem c8_pagination_clamped (page per_page : Int) (people : List Person)
    (companies : List Company) (pid : String) (lim : Int) (notes : List Note)
    (hpid : folkIdMatches pid = true) :
    ((browse_people page per_page people).1 =
        [.listPeopleReq (clampPage per_page) []]
      ∧ 1 ≤ clampPage per_page ∧ clampPage per_page ≤ 50)
    ∧ (browse_companies page per_page companies).1 =
        [.listCompaniesReq (clampPage per_page) []]
    ∧ ((get_notes pid lim notes).1 =
        [.listNotesReq (clampPage lim) (some pid)]
      ∧ 1 ≤ clampPage lim ∧ clampPage lim ≤ 50) := by
  refine ⟨⟨rfl, ?_, ?_⟩, rfl, ⟨?_, ?_, ?_⟩⟩
  · exact le_min (le_max_right _ _) (by decide)
  · exact min_le_right _ _
  · simp [get_notes, hpid]
  · exact le_min (le_max_right _ _) (by decide)
  · exact min_le_right _ _

/-- Witness for C8 at `limit = 100` and a well-formed person id: the notes
listing is issued once with the clamped limit 50. -/
theorem c8_witness :
    (get_notes "per_00000000-0000-0000-0000-000000000000" 100 []).1 =
      [FolkCall.listNotesReq 50 (some "per_00000000-0000-0000-0000-000000000000")] :=
  (c8_pagination_clamped 1 100 [] [] "per_00000000-0000-0000-0000-000000000000"
    100 [] (by decide)).2.2.1

/-! ## C4: the display-name rule -/

theorem str_append_ne_empty (s t : String) (h : s ≠ "") : s ++ t ≠ "" := by
  intro he
  apply h
  have hd : (s ++ t).data = [] := by rw [he]
  rw [String.data_append] at hd
  exact String.ext (List.append_eq_nil.mp hd).1

theorem displayName_eq_specRule (p : Person) : displayName p = specRuleName p := by
  rcases hf : p.first_name with _ | f <;> rcases hl : p.last_name with _ | l
  · rcases hu : p.full_name with _ | u
    · simp [displayName, specRuleName, nameParts, strTruthy, pyOr, joinSpace, hf, hl, hu]
    · by_cases hue : u = "" <;>
        simp [displayName, specRuleName, nameParts, strTruthy, pyOr, joinSpace,
          hf, hl, hu, hue]
  · by_cases hle : l = ""
    · subst hle
      rcases hu : p.full_name with _ | u
      · simp [displayName, specRuleName, nameParts, strTruthy, pyOr, joinSpace, hf, hl, hu]
      · by_cases hue : u = "" <;>
          simp [displayName, specRuleName, nameParts, strTruthy, pyOr, joinSpace,
            hf, hl, hu, hue]
    · simp [displayName, specRuleName, nameParts, strTruthy, pyOr, joinSpace, hf, hl, hle]
  · by_cases hfe : f = ""
    · subst hfe
      rcases hu : p.full_name with _ | u
      · simp [displayName, specRuleName, nameParts, strTruthy, pyOr, joinSpace, hf, hl, hu]
      · by_cases hue : u = "" <;>
          simp [displayName, specRuleName, nameParts, strTruthy, pyOr, joinSpace,
            hf, hl, hu, hue]
    · simp [displayName, specRuleName, nameParts, strTruthy, pyOr, joinSpace, hf, hl, hfe]
  · by_cases hfe : f = ""
    · subst hfe
      by_cases hle : l = "" <;>
        rcases hu : p.full_name with _ | u <;>
          simp [displayName, specRuleName, nameParts, strTruthy, pyOr, joinSpace,
            hf, hl, hu, hle]
    · by_cases hle : l = ""
      · simp [displayName, specRuleName, nameParts, strTruthy, pyOr, joinSpace,
          hf, hl, hfe, hle]
      · have hne : ((f ++ " " ++ l) == "") = false :=
          beq_eq_false_iff_ne.mpr
            (str_append_ne_empty (f ++ " ") l (str_append_ne_empty f " " hfe))
        simp [displayName, specRuleName, nameParts, strTruthy, pyOr, joinSpace,
          hf, hl, hfe, hle, hne]

/-- A person with no name parts but an upstream `fullName`, as an upstream
PATCH response. -/
def ghostPerson : Person := { id := "per_ghost", full_name := some "Alice Smith" }

/-- C4 counterexample: on a person with no first/last parts but an upstream
`fullName` of `Alice Smith`, `update_person` reports the name `Unknown`
while the claimed common rule yields `Alice Smith` — `update_person` does
not share the fallback-to-`fullName` rule. -/
theorem c4_counterexample :
    (update_person "per_00000000-0000-0000-0000-000000000000"
        none none none none none ghostPerson).2 =
      .ok { id := "per_ghost", name := "Unknown", updated := true }
    ∧ specRuleName ghostPerson = "Alice Smith"
    ∧ ("Unknown" : String) ≠ "Alice Smith" :=
  ⟨rfl, rfl, by decide⟩

/-- C4 (amended): `find_person`, `browse_people` and `find_people_in_group`
all construct display names by the spec rule (truthy first/last parts joined
by one space, else the upstream `fullName`, else `Unknown`); `update_person`
applies the same rule but with the `fullName` fallback skipped, i.e. it
behaves as if `fullName` were always absent. -/
theorem c4_display_name_rule (p : Person) (gid : String) :
    (findPersonRow p).name = specRuleName p
    ∧ (browsePersonRow p).name = specRuleName p
    ∧ (groupPersonRow gid p).name = specRuleName p
    ∧ updateDisplayName p = specRuleName { p with full_name := none } := by
  refine ⟨displayName_eq_specRule p, displayName_eq_specRule p,
    displayName_eq_specRule p, ?_⟩
  have h2 := displayName_eq_specRule { p with full_name := none }
  have h3 : updateDisplayName p = displayName { p with full_name := none } := by
    simp [updateDisplayName, displayName, nameParts, pyOr]
  exact h3.trans h2

/-! ## C5: group-name resolution -/

theorem find_eq_some_split {α : Type} (p : α → Bool) (l : List α) (x : α)
    (h : l.find? p = some x) :
    ∃ l1 l2, l = l1 ++ x :: l2 ∧ p x = true ∧ ∀ y ∈ l1, p y = false := by
  induction l with
  | nil => simp at h
  | cons a as ih =>
    by_cases hpa : p a = true
    · rw [List.find?_cons_of_pos _ hpa] at h
      obtain rfl := Option.some.inj h
      exact ⟨[], as, rfl, hpa, by simp⟩
    · rw [List.find?_cons_of_neg _ (by simpa using hpa)] at h
      obtain ⟨l1, l2, rfl, hx, hall⟩ := ih h
      refine ⟨a :: l1, l2, rfl, hx, ?_⟩
      intro y hy
      rcases List.mem_cons.mp hy with rfl | hy2
      · simpa using hpa
      · exact hall y hy2

theorem find_is_some_of_mem {α : Type} {p : α → Bool} {l : List α} {x : α}
    (hx : x ∈ l) (hpx : p x = true) : ∃ y, l.find? p = some y := by
  cases hfind : l.find? p with
  | some y => exact ⟨y, rfl⟩
  | none => exact absurd hpx (by simpa using List.find?_eq_none.mp hfind x hx)

/-- C5: group resolution first takes the earliest case-insensitive exact
match in listing order; only when no exact match exists does it take the
earliest case-insensitive substring match; when neither exists both group
tools return the structured not-found result with at most 10 sample group
names (and no exception). -/
theorem c5_group_resolution (groups : List FolkGroup) (q : String)
    (st cf cv : Option String) (lim : Int) (people : List Person)
    (companies : List Company) :
    (∀ g, g ∈ groups → ciEq q g = true →
      ∃ g2 l1 l2, resolveGroup groups q = some g2 ∧ ciEq q g2 = true ∧
  groups = l1 ++ g2 :: l2 ∧ ∀ x ∈ l1, ciEq q x = false)
    ∧ ((∀ g ∈ groups, ciEq q g = false) → ∀ g, g ∈ groups → ciSub q g = true →
      ∃ g2 l1 l2, resolveGroup groups q = some g2 ∧ ciSub q g2 = true ∧
  groups = l1 ++ g2 :: l2 ∧ ∀ x ∈ l1, ciSub q x = false)
    ∧ ((∀ g ∈ groups, ciEq q g = false ∧ ciSub q g = false) →
      resolveGroup groups q = none
      ∧ (find_people_in_group q st cf cv lim groups people).2 =
          .groupMissing false (groupNotFoundMsg q)
            ((groups.take 10).map FolkGroup.name) groupNotFoundHint
      ∧ (find_companies_in_group q st cf cv lim groups companies).2 =
          .groupMissing false (groupNotFoundMsg q)
            ((groups.take 10).map FolkGroup.name) groupNotFoundHint
      ∧ ((groups.take 10).map FolkGroup.name).length ≤ 10) := by
  refine ⟨?_, ?_, ?_⟩
  · intro g hg hciEq
    obtain ⟨g2, hg2⟩ := find_is_some_of_mem hg hciEq
    obtain ⟨l1, l2, hsplit, hpx, hall⟩ := find_eq_some_split _ _ _ hg2
    exact ⟨g2, l1, l2, by simp [resolveGroup, hg2], hpx, hsplit, hall⟩
  · intro hnoexact g hg hciSub
    have hnone : groups.find? (ciEq q) = none :=
      List.find?_eq_none.mpr fun x hx => by simp [hnoexact x hx]
    obtain ⟨g2, hg2⟩ := find_is_some_of_mem hg hciSub
    obtain ⟨l1, l2, hsplit, hpx, hall⟩ := find_eq_some_split _ _ _ hg2
    exact ⟨g2, l1, l2, by simp [resolveGroup, hnone, hg2], hpx, hsplit, hall⟩
  · intro hnomatch
    have hnone : groups.find? (ciEq q) = none :=
      List.find?_eq_none.mpr fun x hx => by simp [(hnomatch x hx).1]
    have hnone2 : groups.find? (ciSub q) = none :=
      List.find?_eq_none.mpr fun x hx => by simp [(hnomatch x hx).2]
    have hres : resolveGroup groups q = none := by
      simp [resolveGroup, hnone, hnone2]
    refine ⟨hres, ?_, ?_, ?_⟩
    · simp [find_people_in_group, hres]
    · simp [find_companies_in_group, hres]
    · calc ((groups.take 10).map FolkGroup.name).length
          = (groups.take 10).length := List.length_map _ _
        _ ≤ 10 := by
            rw [List.length_take]
            exact min_le_left _ _

/-- The spec's example listing: `Sales` and `Sales Pipeline`. -/
def demoGroups : List FolkGroup :=
  [{ id := "grp_1", name := "Sales" }, { id := "grp_2", name := "Sales Pipeline" }]

/-- Witness for C5: querying `sales` against `[Sales, Sales Pipeline]`
resolves to the exact match `Sales` (not the substring match), with no
earlier exact match skipped. -/
theorem c5_witness :
    (∃ g2 l1 l2, resolveGroup demoGroups "sales" = some g2 ∧
        ciEq "sales" g2 = true ∧ demoGroups = l1 ++ g2 :: l2 ∧
        ∀ x ∈ l1, ciEq "sales" x = false)
    ∧ resolveGroup demoGroups "sales" = some { id := "grp_1", name := "Sales" } :=
  ⟨(c5_group_resolution demoGroups "sales" none none none 20 [] []).1
      { id := "grp_1", name := "Sales" } (List.Mem.head _) (by decide),
   by decide⟩

/-! ## C9: create_person body round-trip -/

/-- The value a truthy string argument contributes to the body (`none` when
the argument is absent or empty). -/
def strField (o : Option String) : Option JVal :=
  match o with
  | some s => if s == "" then none else some (.str s)
  | none => none

/-- The value a truthy list argument contributes to the body. -/
def listField (o : Option (List String)) : Option JVal :=
  match o with
  | some (x :: xs) => some (.arr ((x :: xs).map .str))
  | _ => none

/-- The value a truthy dict argument contributes to the body. -/
def objField (o : Option (List (String × JVal))) : Option JVal :=
  match o with
  | some (f :: fs) => some (.obj (f :: fs))
  | _ => none

theorem alookup_strEntry_ne (k key : String) (o : Option String)
    (rest : List (String × JVal)) (h : (k == key) = false) :
    alookup (strEntry k o ++ rest) key = alookup rest key := by
  rcases o with _ | s
  · rfl
  · by_cases hs : (s == "") = true <;> simp [strEntry, alookup, hs, h]

theorem alookup_listEntry_ne (k key : String) (o : Option (List String))
    (rest : List (String × JVal)) (h : (k == key) = false) :
    alookup (listEntry k o ++ rest) key = alookup rest key := by
  rcases o with _ | ls
  · rfl
  · rcases ls with _ | ⟨x, xs⟩ <;> simp [listEntry, alookup, h]

theorem alookup_strEntry_self (k : String) (o : Option String)
    (rest : List (String × JVal)) :
    alookup (strEntry k o ++ rest) k =
      match strField o with
      | some v => some v
      | none => alookup rest k := by
  rcases o with _ | s
  · rfl
  · by_cases hs : (s == "") = true <;> simp [strEntry, strField, alookup, hs]

theorem alookup_listEntry_self (k : String) (o : Option (List String))
    (rest : List (String × JVal)) :
    alookup (listEntry k o ++ rest) k =
      match listField o with
      | some v => some v
      | none => alookup rest k := by
  rcases o with _ | ls
  · rfl
  · rcases ls with _ | ⟨x, xs⟩ <;> simp [listEntry, listField, alookup]

theorem alookup_objEntry_ne (k key : String) (o : Option (List (String × JVal)))
    (h : (k == key) = false) :
    alookup (objEntry k o) key = none := by
  rcases o with _ | m
  · rfl
  · rcases m with _ | ⟨f, fs⟩ <;> simp [objEntry, alookup, h]

theorem alookup_objEntry_self (k : String) (o : Option (List (String × JVal))) :
    alookup (objEntry k o) k = objField o := by
  rcases o with _ | m
  · rfl
  · rcases m with _ | ⟨f, fs⟩ <;> simp [objEntry, objField, alookup]

/-- C9 counterexample: an empty string is non-null yet falsy, so
`create_person(first_name="")` produces a body with no `firstName` key at
all; decoding recovers nothing although a non-null value was supplied. -/
theorem c9_counterexample :
    create_person_body (some "") none none none none none none none none = []
    ∧ alookup (create_person_body (some "") none none none none none none none
        none) "firstName" = none :=
  ⟨rfl, rfl⟩

/-- C9 (amended): decoding the creation body recovers exactly the truthy
arguments: every non-empty supplied value appears unchanged under its
camelCase key, and an argument that is null or empty (`""`, `[]`, an empty
dict) produces no key. -/
theorem c9_create_person_roundtrip (fn ln jt ds : Option String)
    (em ph gi ci : Option (List String)) (cf : Option (List (String × JVal))) :
    alookup (create_person_body fn ln em ph jt ds gi ci cf) "firstName" =
      strField fn
    ∧ alookup (create_person_body fn ln em ph jt ds gi ci cf) "lastName" =
      strField ln
    ∧ alookup (create_person_body fn ln em ph jt ds gi ci cf) "emails" =
      listField em
    ∧ alookup (create_person_body fn ln em ph jt ds gi ci cf) "phones" =
      listField ph
    ∧ alookup (create_person_body fn ln em ph jt ds gi ci cf) "jobTitle" =
      strField jt
    ∧ alookup (create_person_body fn ln em ph jt ds gi ci cf) "description" =
      strField ds
    ∧ alookup (create_person_body fn ln em ph jt ds gi ci cf) "groupIds" =
      listField gi
    ∧ alookup (create_person_body fn ln em ph jt ds gi ci cf) "companyIds" =
      listField ci
    ∧ alookup (create_person_body fn ln em ph jt ds gi ci cf)
        "customFieldValues" = objField cf := by
  unfold create_person_body
  refine ⟨?_, ?_, ?_, ?_, ?_, ?_, ?_, ?_, ?_⟩
  · rw [alookup_strEntry_self]
    cases hv : strField fn with
    | some v => rfl
    | none =>
      rw [alookup_strEntry_ne _ _ _ _ (by decide),
        alookup_listEntry_ne _ _ _ _ (by decide),
        alookup_listEntry_ne _ _ _ _ (by decide),
        alookup_strEntry_ne _ _ _ _ (by decide),
        alookup_strEntry_ne _ _ _ _ (by decide),
        alookup_listEntry_ne _ _ _ _ (by decide),
        alookup_listEntry_ne _ _ _ _ (by decide),
        alookup_objEntry_ne _ _ _ (by decide)]
  · rw [alookup_strEntry_ne _ _ _ _ (by decide), alookup_strEntry_self]
    cases hv : strField ln with
    | some v => rfl
    | none =>
      rw [alookup_listEntry_ne _ _ _ _ (by decide),
        alookup_listEntry_ne _ _ _ _ (by decide),
        alookup_strEntry_ne _ _ _ _ (by decide),
        alookup_strEntry_ne _ _ _ _ (by decide),
        alookup_listEntry_ne _ _ _ _ (by decide),
        alookup_listEntry_ne _ _ _ _ (by decide),
        alookup_objEntry_ne _ _ _ (by decide)]
  · rw [alookup_strEntry_ne _ _ _ _ (by decide),
      alookup_strEntry_ne _ _ _ _ (by decide), alookup_listEntry_self]
    cases hv : listField em with
    | some v => rfl
    | none =>
      rw [alookup_listEntry_ne _ _ _ _ (by decide),
        alookup_strEntry_ne _ _ _ _ (by decide),
        alookup_strEntry_ne _ _ _ _ (by decide),
        alookup_listEntry_ne _ _ _ _ (by decide),
        alookup_listEntry_ne _ _ _ _ (by decide),
        alookup_objEntry_ne _ _ _ (by decide)]
  · rw [alookup_strEntry_ne _ _ _ _ (by decide),
      alookup_strEntry_ne _ _ _ _ (by decide),
      alookup_listEntry_ne _ _ _ _ (by decide), alookup_listEntry_self]
    cases hv : listField ph with
    | some v => rfl
    | none =>
      rw [alookup_strEntry_ne _ _ _ _ (by decide),
        alookup_strEntry_ne _ _ _ _ (by decide),
        alookup_listEntry_ne _ _ _ _ (by decide),
        alookup_listEntry_ne _ _ _ _ (by decide),
        alookup_objEntry_ne _ _ _ (by decide)]
  · rw [alookup_strEntry_ne _ _ _ _ (by decide),
      alookup_strEntry_ne _ _ _ _ (by decide),
      alookup_listEntry_ne _ _ _ _ (by decide),
      alookup_listEntry_ne _ _ _ _ (by decide), alookup_strEntry_self]
    cases hv : strField jt with
    | some v => rfl
    | none =>
      rw [alookup_strEntry_ne _ _ _ _ (by decide),
        alookup_listEntry_ne _ _ _ _ (by decide),
        alookup_listEntry_ne _ _ _ _ (by decide),
        alookup_objEntry_ne _ _ _ (by decide)]
  · rw [alookup_strEntry_ne _ _ _ _ (by decide),
      alookup_strEntry_ne _ _ _ _ (by decide),
      alookup_listEntry_ne _ _ _ _ (by decide),
      alookup_listEntry_ne _ _ _ _ (by decide),
      alookup_strEntry_ne _ _ _ _ (by decide), alookup_strEntry_self]
    cases hv : strField ds with
    | some v => rfl
    | none =>
      rw [alookup_listEntry_ne _ _ _ _ (by decide),
        alookup_listEntry_ne _ _ _ _ (by decide),
        alookup_objEntry_ne _ _ _ (by decide)]
  · rw [alookup_strEntry_ne _ _ _ _ (by decide),
      alookup_strEntry_ne _ _ _ _ (by decide),
      alookup_listEntry_ne _ _ _ _ (by decide),
      alookup_listEntry_ne _ _ _ _ (by decide),
      alookup_strEntry_ne _ _ _ _ (by decide),
      alookup_strEntry_ne _ _ _ _ (by decide), alookup_listEntry_self]
    cases hv : listField gi with
    | some v => rfl
    | none =>
      rw [alookup_listEntry_ne _ _ _ _ (by decide),
        alookup_objEntry_ne _ _ _ (by decide)]
  · rw [alookup_strEntry_ne _ _ _ _ (by decide),
      alookup_strEntry_ne _ _ _ _ (by decide),
      alookup_listEntry_ne _ _ _ _ (by decide),
      alookup_listEntry_ne _ _ _ _ (by decide),
      alookup_strEntry_ne _ _ _ _ (by decide),
      alookup_strEntry_ne _ _ _ _ (by decide),
      alookup_listEntry_ne _ _ _ _ (by decide), alookup_listEntry_self]
    cases hv : listField ci with
    | some v => rfl
    | none => rw [alookup_objEntry_ne _ _ _ (by decide)]
  · rw [alookup_strEntry_ne _ _ _ _ (by decide),
      alookup_strEntry_ne _ _ _ _ (by decide),
      alookup_listEntry_ne _ _ _ _ (by decide),
      alookup_listEntry_ne _ _ _ _ (by decide),
      alookup_strEntry_ne _ _ _ _ (by decide),
      alookup_strEntry_ne _ _ _ _ (by decide),
      alookup_listEntry_ne _ _ _ _ (by decide),
      alookup_listEntry_ne _ _ _ _ (by decide), alookup_objEntry_self]

/-- C10: in every result of the four search-style tools, `total` equals the
length of the returned match list and `found` is true exactly when that
length is positive; the group tools' group-not-found result carries
`found = false` and no match list, so no disagreement is possible there
either. -/
theorem c10_search_result_invariant (nm : String) (people : List Person)
    (cnm : String) (companies : List Company) (gn : String)
    (st cf cv : Option String) (lim : Int) (groups : List FolkGroup) :
    ((find_person nm people).2.found =
        decide (0 < (find_person nm people).2.matchRows.length)
      ∧ (find_person nm people).2.total =
        (find_person nm people).2.matchRows.length)
    ∧ ((find_company cnm companies).2.found =
        decide (0 < (find_company cnm companies).2.matchRows.length)
      ∧ (find_company cnm companies).2.total =
        (find_company cnm companies).2.matchRows.length)
    ∧ (match (find_people_in_group gn st cf cv lim groups people).2 with
       | .groupMissing f _ _ _ => f = false
       | .results f rows t _ => f = decide (0 < rows.length) ∧ t = rows.length)
    ∧ (match (find_companies_in_group gn st cf cv lim groups companies).2 with
       | .groupMissing f _ _ _ => f = false
       | .results f rows t _ => f = decide (0 < rows.length) ∧ t = rows.length) := by
  refine ⟨⟨rfl, rfl⟩, ⟨rfl, rfl⟩, ?_, ?_⟩
  · cases hres : resolveGroup groups gn <;> simp [find_people_in_group, hres]
  · cases hres : resolveGroup groups gn <;> simp [find_companies_in_group, hres]
